import Mathlib

/-!
Verification of the RecipeSnap front-end workflow.

This file shallowly embeds the state-bearing parts of the React
application: the Workflow Controller in src/components/RecipeSnap.js
(state hooks, handleImageAnalysis, handleError, resetApp, and the
setTimeout-based delayed transition), the ingredient-editing operations
in src/components/IngredientsList.js (addCustomIngredient,
removeIngredient), and the Analysis Client in
src/components/ImageUpload.js (analyzeImage with its axios error
classification). Each React useState hook becomes a field of AppState;
each event handler becomes a function AppState to AppState; the pending
setTimeout callback becomes an explicit Option Nat field recording the
scheduled delay, with fireRecipesTimer modelling the JS runtime
executing the callback.
-/

namespace RecipeSnap

/-- The currentStep useState of RecipeSnap.js: the string union
upload | ingredients | recipes. -/
inductive Step where
  | upload
  | ingredients
  | recipes
deriving DecidableEq

/-- A recipe record as consumed by RecipesList.js / RecipeCard:
required name, description, ingredient lines and instruction steps,
plus the optional meta fields the card renders conditionally. -/
structure Recipe where
  name : String
  description : String
  ingredients : List String
  instructions : List String
  prep_time : Option String
  cook_time : Option String
  servings : Option Nat
  difficulty : Option String
  cuisine_type : Option String
deriving DecidableEq

/-- The response payload of the full-analysis endpoint as consumed by
handleImageAnalysis: an ingredient sequence and a recipe sequence. -/
structure AnalysisResult where
  ingredients : List String
  recipes : List Recipe
deriving DecidableEq

/-- The state of the RecipeSnap component: one field per useState hook,
plus recipesTimer recording a pending
setTimeout (fun _ => setCurrentStep recipes) delay when one has been
scheduled and not yet fired or cleared (the source never clears one). -/
structure AppState where
  ingredients : List String
  recipes : List Recipe
  loading : Bool
  error : Option String
  currentStep : Step
  recipesTimer : Option Nat
deriving DecidableEq

/-- The delay passed to setTimeout in handleImageAnalysis (ms). -/
def pacingDelayMs : Nat := 1000

/-- The initial state: all useState initialisers in RecipeSnap.js
(empty lists, loading false, error null, step upload), no timer. -/
def initState : AppState :=
  { ingredients := []
    recipes := []
    loading := false
    error := none
    currentStep := Step.upload
    recipesTimer := none }

/-- handleImageAnalysis from RecipeSnap.js: unconditionally store the
payload sequences; if the ingredient list is non-empty move to
ingredients, and if the recipe list is also non-empty schedule the
delayed transition to recipes via setTimeout with a 1000 ms delay. -/
def handleImageAnalysis (s : AppState) (r : AnalysisResult) : AppState :=
  let s1 := { s with ingredients := r.ingredients, recipes := r.recipes }
  if r.ingredients.length > 0 then
    let s2 := { s1 with currentStep := Step.ingredients }
    if r.recipes.length > 0 then
      { s2 with recipesTimer := some pacingDelayMs }
    else s2
  else s1

/-- handleError from RecipeSnap.js: record the message and clear the
loading flag. -/
def handleError (s : AppState) (msg : String) : AppState :=
  { s with error := some msg, loading := false }

/-- resetApp from RecipeSnap.js: clear ingredients, recipes and error
and return to upload. The source neither calls setLoading nor clears
any pending setTimeout, so loading and recipesTimer are untouched. -/
def resetApp (s : AppState) : AppState :=
  { s with
    ingredients := []
    recipes := []
    error := none
    currentStep := Step.upload }

/-- The JS runtime firing a pending setTimeout callback scheduled by
handleImageAnalysis: it runs setCurrentStep recipes. A no-op when no
callback is pending. -/
def fireRecipesTimer (s : AppState) : AppState :=
  match s.recipesTimer with
  | some _ => { s with currentStep := Step.recipes, recipesTimer := none }
  | none => s

/-- The dismiss button on the error banner: setError null. -/
def dismissError (s : AppState) : AppState :=
  { s with error := none }

/-! ## IngredientsList.js: local editing of the ingredient sequence -/

/-- The JS String.prototype.trim used by IngredientsList.js: strip
whitespace from both ends of the string. -/
def jsTrim (s : String) : String :=
  String.mk
    (((s.data.dropWhile Char.isWhitespace).reverse.dropWhile
        Char.isWhitespace).reverse)

/-- addCustomIngredient from IngredientsList.js: if the trimmed input
is non-empty (JS truthiness of the trimmed string) and not already
included, append the trimmed input; otherwise do nothing. -/
def addCustomIngredient (customIngredient : String)
    (editableIngredients : List String) : List String :=
  if jsTrim customIngredient ≠ "" ∧
      ¬ editableIngredients.contains (jsTrim customIngredient) then
    editableIngredients ++ [jsTrim customIngredient]
  else
    editableIngredients

/-- removeIngredient from IngredientsList.js: keep exactly the
elements whose position differs from the given index, in order
(the filter over (element, index) pairs in the source). -/
def removeIngredient (index : Nat)
    (editableIngredients : List String) : List String :=
  (editableIngredients.enum.filter (fun p => decide (p.1 ≠ index))).map
    Prod.snd

/-- One user edit of the ingredient list: the add button or a remove
button on one entry. -/
inductive IngredientEdit where
  | add (str : String)
  | remove (index : Nat)

/-- The effect of one ingredient edit on the application state:
IngredientsList.js calls onIngredientsUpdate, which is setIngredients
in RecipeSnap.js, so only the ingredients field changes. -/
def applyEdit (s : AppState) (e : IngredientEdit) : AppState :=
  match e with
  | IngredientEdit.add str =>
      { s with ingredients := addCustomIngredient str s.ingredients }
  | IngredientEdit.remove i =>
      { s with ingredients := removeIngredient i s.ingredients }

/-- A sequence of ingredient edits applied in order. -/
def applyEdits (s : AppState) (es : List IngredientEdit) : AppState :=
  es.foldl applyEdit s

/-! ## ImageUpload.js: the Analysis Client -/

/-- The response object attached to an axios error when the server
answered with a non-success status: the optional detail field of its
data, and the status text. -/
structure ErrResponse where
  detail : Option String
  statusText : String
deriving DecidableEq

/-- An axios rejection as inspected by the catch block of
analyzeImage: optional error code, optional response, whether a
request object is present (request sent, no response), and the
message. -/
structure AxiosError where
  code : Option String
  response : Option ErrResponse
  request : Bool
  message : String
deriving DecidableEq

/-- The outcome of the awaited axios.post call: either a resolved
response whose data field may be absent/falsy (none), or a rejection
carrying an AxiosError. -/
inductive AxiosResult where
  | ok (data : Option AnalysisResult)
  | err (e : AxiosError)
deriving DecidableEq

/-- The timeout passed to axios.post in analyzeImage (ms). -/
def analysisTimeoutMs : Nat := 60000

/-- The four failure kinds of the specification taxonomy, one per
branch of the catch block in analyzeImage. -/
inductive ErrorKind where
  | timeoutError
  | serverError
  | connectivityError
  | clientError
deriving DecidableEq

/-- Which branch of the if/else-if chain in the catch block of
analyzeImage handles a given axios error: ECONNABORTED first, then a
present response, then a present request, else the fallback. -/
def errorBranch (e : AxiosError) : ErrorKind :=
  if e.code = some "ECONNABORTED" then ErrorKind.timeoutError
  else if e.response.isSome then ErrorKind.serverError
  else if e.request then ErrorKind.connectivityError
  else ErrorKind.clientError

/-- The user-visible message produced by the catch block of
analyzeImage for a given axios error. The server branch interpolates
(detail or statusText), where a missing or empty detail is falsy and
falls through to the status text. -/
def errorMessage (e : AxiosError) : String :=
  if e.code = some "ECONNABORTED" then
    "Request timed out. Please try again with a smaller image."
  else
    match e.response with
    | some resp =>
        "Server error: " ++
          (match resp.detail with
           | some d => if d = "" then resp.statusText else d
           | none => resp.statusText)
    | none =>
        if e.request then
          "Unable to connect to server. Please check if the backend is running."
        else
          "Error: " ++ e.message

/-- The outcome of one analysis call, before it is delivered to the
Workflow Controller callbacks: a full AnalysisResult via
onAnalysisComplete, a classified failure via onError, or the no-data
complaint when the response resolved without a data payload. -/
inductive CallOutcome where
  | result (r : AnalysisResult)
  | failure (kind : ErrorKind) (msg : String)
  | noData (msg : String)
deriving DecidableEq

/-- What the try/catch body of analyzeImage does with the axios
outcome: a resolved response with data is forwarded, a resolved
response without data raises the fixed no-data message, and a
rejection goes through the classification chain. -/
def callOutcome (net : AxiosResult) : CallOutcome :=
  match net with
  | AxiosResult.ok (some d) => CallOutcome.result d
  | AxiosResult.ok none => CallOutcome.noData "No data received from server"
  | AxiosResult.err e => CallOutcome.failure (errorBranch e) (errorMessage e)

/-- analyzeImage from ImageUpload.js as a state transformer, given
whether an image is selected and how the axios call resolves: the
missing-image guard short-circuits through onError; otherwise
setLoading true, the try body dispatches on the axios outcome through
onAnalysisComplete / onError, and the finally block runs
setLoading false. -/
def analyzeImage (uploadedImage : Bool) (net : AxiosResult)
    (s : AppState) : AppState :=
  if !uploadedImage then
    handleError s "Please select an image first"
  else
    let s1 := { s with loading := true }
    let s2 :=
      match callOutcome net with
      | CallOutcome.result r => handleImageAnalysis s1 r
      | CallOutcome.failure _ msg => handleError s1 msg
      | CallOutcome.noData msg => handleError s1 msg
    { s2 with loading := false }

/-- Modelled from the spec: the transport layer under the axios call
is not part of this repository. A call configured with a timeout
whose wait would exceed that bound is abandoned and rejected with
code ECONNABORTED and no response attached; otherwise the transport
delivers whatever the server interaction produced. -/
def transport (timeoutMs elapsedMs : Nat) (served : AxiosResult) :
    AxiosResult :=
  if timeoutMs < elapsedMs then
    AxiosResult.err
      { code := some "ECONNABORTED"
        response := none
        request := true
        message := "timeout exceeded" }
  else served

/-! ## Helper lemmas -/

/-- A concrete recipe payload used in witnesses. -/
def sampleRecipe : Recipe :=
  { name := "Tomato soup"
    description := "A quick soup"
    ingredients := ["tomato", "onion"]
    instructions := ["Chop", "Boil"]
    prep_time := none
    cook_time := none
    servings := none
    difficulty := none
    cuisine_type := none }

lemma filter_ne_enumFrom_of_lt :
    ∀ (l : List String) (m k : Nat), k < m →
      (l.enumFrom m).filter (fun p => decide (p.1 ≠ k)) = l.enumFrom m
  | [], _, _, _ => rfl
  | a :: t, m, k, h => by
    show ((m, a) :: List.enumFrom (m + 1) t).filter
        (fun p => decide (p.1 ≠ k)) = (m, a) :: List.enumFrom (m + 1) t
    rw [List.filter_cons, if_pos (decide_eq_true (Nat.ne_of_gt h))]
    exact congrArg (List.cons (m, a))
      (filter_ne_enumFrom_of_lt t (m + 1) k (Nat.lt_succ_of_lt h))

lemma enumFrom_filter_eraseIdx :
    ∀ (l : List String) (m i : Nat),
      ((l.enumFrom m).filter (fun p => decide (p.1 ≠ m + i))).map Prod.snd =
        l.eraseIdx i
  | [], _, _ => rfl
  | a :: t, m, 0 => by
    show (((m, a) :: List.enumFrom (m + 1) t).filter
        (fun p => decide (p.1 ≠ m + 0))).map Prod.snd = t
    rw [List.filter_cons, if_neg (by simp)]
    rw [filter_ne_enumFrom_of_lt t (m + 1) (m + 0) (by omega)]
    exact List.enumFrom_map_snd (m + 1) t
  | a :: t, m, i + 1 => by
    show (((m, a) :: List.enumFrom (m + 1) t).filter
        (fun p => decide (p.1 ≠ m + (i + 1)))).map Prod.snd =
        a :: t.eraseIdx i
    rw [List.filter_cons, if_pos (decide_eq_true (by omega))]
    rw [List.map_cons]
    refine congrArg (List.cons a) ?_
    rw [show m + (i + 1) = m + 1 + i from by omega]
    exact enumFrom_filter_eraseIdx t (m + 1) i

lemma removeIngredient_eq_eraseIdx (index : Nat) (l : List String) :
    removeIngredient index l = l.eraseIdx index := by
  have h := enumFrom_filter_eraseIdx l 0 index
  simpa [removeIngredient, List.enum] using h

lemma applyEdit_frame (s : AppState) (e : IngredientEdit) :
    (applyEdit s e).currentStep = s.currentStep ∧
    (applyEdit s e).recipes = s.recipes ∧
    (applyEdit s e).error = s.error ∧
    (applyEdit s e).loading = s.loading ∧
    (applyEdit s e).recipesTimer = s.recipesTimer := by
  cases e <;> exact ⟨rfl, rfl, rfl, rfl, rfl⟩

lemma applyEdits_frame :
    ∀ (es : List IngredientEdit) (s : AppState),
      (applyEdits s es).currentStep = s.currentStep ∧
      (applyEdits s es).recipes = s.recipes ∧
      (applyEdits s es).error = s.error ∧
      (applyEdits s es).loading = s.loading ∧
      (applyEdits s es).recipesTimer = s.recipesTimer
  | [], _ => ⟨rfl, rfl, rfl, rfl, rfl⟩
  | e :: es, s => by
    have h1 := applyEdit_frame s e
    have h2 := applyEdits_frame es (applyEdit s e)
    exact ⟨h2.1.trans h1.1, h2.2.1.trans h1.2.1, h2.2.2.1.trans h1.2.2.1,
      h2.2.2.2.1.trans h1.2.2.2.1, h2.2.2.2.2.trans h1.2.2.2.2⟩

/-! ## Claim theorems -/

/-- Claim C1: from the Upload state with no pending timer, an
AnalysisResult with an empty ingredient sequence leaves the step at
upload and schedules nothing; one with ingredients but no recipes
moves the step to ingredients and arms no timer, so the timer event
is a no-op and the state never auto-advances to recipes; one with
both sequences non-empty moves the step to ingredients and schedules
the transition to recipes after the fixed 1000 ms pacing delay. -/
theorem upload_analysis_transitions (s : AppState) (r : AnalysisResult)
    (hstep : s.currentStep = Step.upload) (htimer : s.recipesTimer = none) :
    (r.ingredients = [] →
      (handleImageAnalysis s r).currentStep = Step.upload ∧
      (handleImageAnalysis s r).recipesTimer = none) ∧
    (r.ingredients ≠ [] → r.recipes = [] →
      (handleImageAnalysis s r).currentStep = Step.ingredients ∧
      (handleImageAnalysis s r).recipesTimer = none ∧
      fireRecipesTimer (handleImageAnalysis s r) = handleImageAnalysis s r) ∧
    (r.ingredients ≠ [] → r.recipes ≠ [] →
      (handleImageAnalysis s r).currentStep = Step.ingredients ∧
      (handleImageAnalysis s r).recipesTimer = some pacingDelayMs) := by
  refine ⟨fun h => ?_, fun h1 h2 => ?_, fun h1 h2 => ?_⟩
  · simp [handleImageAnalysis, h, hstep, htimer]
  · have hl : 0 < r.ingredients.length := List.length_pos.mpr h1
    simp [handleImageAnalysis, hl, h2, htimer, fireRecipesTimer]
  · have hl : 0 < r.ingredients.length := List.length_pos.mpr h1
    have hr : 0 < r.recipes.length := List.length_pos.mpr h2
    simp [handleImageAnalysis, hl, hr]

/-- Witness for C1 at a concrete payload with both sequences
non-empty, delivered in the initial state. -/
theorem upload_analysis_transitions_witness :
    (handleImageAnalysis initState
        (AnalysisResult.mk ["tomato", "onion"] [sampleRecipe])).currentStep =
      Step.ingredients ∧
    (handleImageAnalysis initState
        (AnalysisResult.mk ["tomato", "onion"] [sampleRecipe])).recipesTimer =
      some pacingDelayMs :=
  (upload_analysis_transitions initState
      (AnalysisResult.mk ["tomato", "onion"] [sampleRecipe]) rfl rfl).2.2
    (by simp) (by simp [sampleRecipe])

/-- Claim C2 counterexample: resetApp never touches the loading flag,
so resetting a state whose busy flag is set leaves the flag set and
the result is not the initial state. -/
theorem resetApp_busy_counterexample :
    (resetApp { initState with
        loading := true, currentStep := Step.ingredients }).loading = true ∧
    resetApp { initState with
        loading := true, currentStep := Step.ingredients } ≠ initState := by
  refine ⟨rfl, by decide⟩

/-- Claim C2 (amended): resetApp returns to upload with empty
ingredient and recipe sequences and no error from any state, but it
leaves the busy flag unchanged; from any state whose busy flag is
already clear and whose pacing timer is not pending, the result is
exactly the initial state. -/
theorem resetApp_spec (s : AppState) :
    (resetApp s).currentStep = Step.upload ∧
    (resetApp s).ingredients = [] ∧
    (resetApp s).recipes = [] ∧
    (resetApp s).error = none ∧
    (resetApp s).loading = s.loading ∧
    (s.loading = false → s.recipesTimer = none → resetApp s = initState) := by
  refine ⟨rfl, rfl, rfl, rfl, rfl, fun hb ht => ?_⟩
  simp [resetApp, initState, hb, ht]

/-- Witness for C2 (amended) at a concrete non-initial state with the
busy flag clear. -/
theorem resetApp_spec_witness :
    resetApp { initState with
      ingredients := ["tomato"]
      recipes := [sampleRecipe]
      error := some "boom"
      currentStep := Step.recipes } = initState :=
  (resetApp_spec { initState with
      ingredients := ["tomato"]
      recipes := [sampleRecipe]
      error := some "boom"
      currentStep := Step.recipes }).2.2.2.2.2 rfl rfl

/-- Claim C3 (code bug): resetApp contains no clearTimeout, so the
pacing timer armed by handleImageAnalysis survives a reset issued
before it fires; the reset state shows upload, yet when the stale
callback runs it mutates the step to recipes. -/
theorem stale_timer_fires_after_reset :
    (resetApp (handleImageAnalysis initState
        (AnalysisResult.mk ["tomato", "onion"] [sampleRecipe]))).currentStep =
      Step.upload ∧
    (resetApp (handleImageAnalysis initState
        (AnalysisResult.mk ["tomato", "onion"] [sampleRecipe]))).recipesTimer =
      some pacingDelayMs ∧
    (fireRecipesTimer (resetApp (handleImageAnalysis initState
        (AnalysisResult.mk ["tomato", "onion"] [sampleRecipe])))).currentStep =
      Step.recipes := by
  exact ⟨rfl, rfl, rfl⟩

/-- Claim C10: handleImageAnalysis stores the payload sequences
unconditionally, before the transition guards run; a zero-ingredient
payload leaves the step where it was while still replacing both
stored sequences with the payload ones. -/
theorem analysis_overwrites_unconditionally (s : AppState)
    (r : AnalysisResult) :
    (handleImageAnalysis s r).ingredients = r.ingredients ∧
    (handleImageAnalysis s r).recipes = r.recipes ∧
    (r.ingredients = [] →
      (handleImageAnalysis s r).currentStep = s.currentStep ∧
      (handleImageAnalysis s r).ingredients = []) := by
  by_cases hl : 0 < r.ingredients.length
  · have hne : r.ingredients ≠ [] := by
      intro h
      rw [h] at hl
      simp at hl
    by_cases hr : 0 < r.recipes.length
    · exact ⟨by simp [handleImageAnalysis, hl, hr],
        by simp [handleImageAnalysis, hl, hr],
        fun h => absurd h hne⟩
    · exact ⟨by simp [handleImageAnalysis, hl, hr],
        by simp [handleImageAnalysis, hl, hr],
        fun h => absurd h hne⟩
  · refine ⟨by simp [handleImageAnalysis, hl],
      by simp [handleImageAnalysis, hl], fun h => ?_⟩
    exact ⟨by simp [handleImageAnalysis, hl],
      by simp [handleImageAnalysis, hl, h]⟩

/-- Witness for C10: a zero-ingredient payload delivered on top of
previously held data clears the ingredients, replaces the recipes,
and leaves the step at upload. -/
theorem analysis_overwrites_unconditionally_witness :
    (handleImageAnalysis { initState with ingredients := ["tomato"] }
        (AnalysisResult.mk [] [sampleRecipe])).ingredients = [] ∧
    (handleImageAnalysis { initState with ingredients := ["tomato"] }
        (AnalysisResult.mk [] [sampleRecipe])).recipes = [sampleRecipe] ∧
    (handleImageAnalysis { initState with ingredients := ["tomato"] }
        (AnalysisResult.mk [] [sampleRecipe])).currentStep = Step.upload := by
  have h := analysis_overwrites_unconditionally
    { initState with ingredients := ["tomato"] }
    (AnalysisResult.mk [] [sampleRecipe])
  exact ⟨(h.2.2 rfl).2, h.2.1, (h.2.2 rfl).1⟩

/-- Predicate following the words of claim C4: the outcome of a call
is an AnalysisResult or one of the four classified error kinds. -/
def isResultOrClassifiedFailure : CallOutcome → Bool
  | CallOutcome.result _ => true
  | CallOutcome.failure _ _ => true
  | CallOutcome.noData _ => false

/-- Claim C4 counterexample: a response that resolves without a data
payload produces the fixed no-data error, an outcome that is neither
an AnalysisResult nor one of the four classified error kinds. -/
theorem callOutcome_noData_counterexample :
    callOutcome (AxiosResult.ok none) =
      CallOutcome.noData "No data received from server" ∧
    isResultOrClassifiedFailure (callOutcome (AxiosResult.ok none)) = false :=
  ⟨rfl, rfl⟩

/-- Claim C4 (amended): every call produces exactly one outcome: the
AnalysisResult when the response resolves with data, the fixed
no-data error when it resolves without data, or exactly one of the
four error kinds; failures are classified in priority order with
timeout first, then server, then connectivity, then client, and the
four kinds are characterised by mutually exclusive conditions. -/
theorem callOutcome_classification (e : AxiosError) :
    (∀ d, callOutcome (AxiosResult.ok (some d)) = CallOutcome.result d) ∧
    callOutcome (AxiosResult.ok none) =
      CallOutcome.noData "No data received from server" ∧
    callOutcome (AxiosResult.err e) =
      CallOutcome.failure (errorBranch e) (errorMessage e) ∧
    (errorBranch e = ErrorKind.timeoutError ↔
      e.code = some "ECONNABORTED") ∧
    (errorBranch e = ErrorKind.serverError ↔
      (e.code ≠ some "ECONNABORTED" ∧ e.response.isSome = true)) ∧
    (errorBranch e = ErrorKind.connectivityError ↔
      (e.code ≠ some "ECONNABORTED" ∧ e.response = none ∧
        e.request = true)) ∧
    (errorBranch e = ErrorKind.clientError ↔
      (e.code ≠ some "ECONNABORTED" ∧ e.response = none ∧
        e.request = false)) := by
  refine ⟨fun d => rfl, rfl, rfl, ?_, ?_, ?_, ?_⟩ <;>
    · unfold errorBranch
      split_ifs with h1 h2 h3 <;>
        simp_all [Option.isSome_iff_exists, Option.eq_none_iff_forall_not_mem]

/-- Witness for C4 (amended) at a concrete rejection with the
ECONNABORTED code. -/
theorem callOutcome_classification_witness :
    callOutcome (AxiosResult.err
      { code := some "ECONNABORTED"
        response := none
        request := true
        message := "timeout exceeded" }) =
      CallOutcome.failure ErrorKind.timeoutError
        "Request timed out. Please try again with a smaller image." :=
  Eq.trans
    ((callOutcome_classification
      { code := some "ECONNABORTED"
        response := none
        request := true
        message := "timeout exceeded" }).2.2.1)
    rfl

/-- Claim C5: when the wait exceeds the 60000 ms bound the transport
rejects with ECONNABORTED, and analyzeImage surfaces exactly the
timeout message, leaves the workflow step unchanged, and clears the
busy flag; the busy flag is also cleared on the success path. -/
theorem timeout_yields_timeout_error (s : AppState) (elapsedMs : Nat)
    (served : AxiosResult) (h : analysisTimeoutMs < elapsedMs) :
    (analyzeImage true (transport analysisTimeoutMs elapsedMs served)
        s).error =
      some "Request timed out. Please try again with a smaller image." ∧
    (analyzeImage true (transport analysisTimeoutMs elapsedMs served)
        s).currentStep = s.currentStep ∧
    (analyzeImage true (transport analysisTimeoutMs elapsedMs served)
        s).loading = false ∧
    (∀ r : AnalysisResult,
      (analyzeImage true (AxiosResult.ok (some r)) s).loading = false) := by
  have ht : transport analysisTimeoutMs elapsedMs served =
      AxiosResult.err
        { code := some "ECONNABORTED"
          response := none
          request := true
          message := "timeout exceeded" } := by
    simp [transport, h]
  rw [ht]
  refine ⟨?_, ?_, ?_, fun r => ?_⟩
  · simp [analyzeImage, callOutcome, errorMessage, handleError]
  · simp [analyzeImage, callOutcome, errorMessage, handleError]
  · simp [analyzeImage, callOutcome, errorMessage, handleError]
  · simp [analyzeImage, callOutcome]

/-- Witness for C5 at a 60001 ms wait in the initial state. -/
theorem timeout_yields_timeout_error_witness :
    (analyzeImage true
        (transport analysisTimeoutMs 60001 (AxiosResult.ok none))
        initState).error =
      some "Request timed out. Please try again with a smaller image." :=
  (timeout_yields_timeout_error initState 60001 (AxiosResult.ok none)
    (by decide)).1

/-- Claim C6 counterexample: analyzeImage contains no error-clearing
call, so an active error message survives the start and even the
successful completion of a new analysis instead of being cleared. -/
theorem stale_error_survives_new_analysis :
    (analyzeImage true
        (AxiosResult.ok (some (AnalysisResult.mk ["tomato"] [])))
        { initState with error := some "Server error: boom" }).error =
      some "Server error: boom" := rfl

/-- Claim C6 (amended): starting a new analysis leaves any active
error message untouched: a successful call preserves the previous
error verbatim, and a failing call overwrites it with the new failure
message rather than clearing it first. -/
theorem analysis_never_clears_error (s : AppState) (r : AnalysisResult)
    (e : AxiosError) :
    (analyzeImage true (AxiosResult.ok (some r)) s).error = s.error ∧
    (analyzeImage true (AxiosResult.err e) s).error =
      some (errorMessage e) := by
  constructor
  · simp [analyzeImage, callOutcome, handleImageAnalysis]
    split_ifs <;> rfl
  · simp [analyzeImage, callOutcome, handleError]

/-- Claim C7 counterexample: the add action trims its input and
requires the trimmed result to be non-empty, so adding a blank string
that is not already present leaves the list unchanged instead of
appending it. -/
theorem addCustomIngredient_blank_counterexample :
    (["tomato", "onion"] : List String).contains " " = false ∧
    addCustomIngredient " " ["tomato", "onion"] = ["tomato", "onion"] ∧
    addCustomIngredient " " ["tomato", "onion"] ≠
      ["tomato", "onion", " "] := by
  refine ⟨rfl, rfl, by decide⟩

/-- Claim C7 (amended): adding a string whose trimmed form is
non-empty and not already present appends the trimmed form at the
end; adding a string whose trimmed form is already present, or whose
trimmed form is empty, leaves the list unchanged; removing at index i
deletes exactly the element at position i, preserving the order of
the rest. -/
theorem ingredient_edit_semantics (str : String) (l : List String)
    (i : Nat) :
    (jsTrim str ≠ "" → l.contains (jsTrim str) = false →
      addCustomIngredient str l = l ++ [jsTrim str]) ∧
    (l.contains (jsTrim str) = true → addCustomIngredient str l = l) ∧
    (jsTrim str = "" → addCustomIngredient str l = l) ∧
    removeIngredient i l = l.eraseIdx i := by
  refine ⟨fun h1 h2 => ?_, fun h => ?_, fun h => ?_,
    removeIngredient_eq_eraseIdx i l⟩
  · have h2m : jsTrim str ∉ l := by simpa using h2
    simp [addCustomIngredient, h1, h2m]
  · have hm : jsTrim str ∈ l := by simpa using h
    simp [addCustomIngredient, hm]
  · simp [addCustomIngredient, h]

/-- Witness for C7 (amended): the concrete scenario of the
specification, adding salt to [tomato, onion] and then removing
index 0 from the three-element list. -/
theorem ingredient_edit_semantics_witness :
    addCustomIngredient "salt" ["tomato", "onion"] =
      ["tomato", "onion", "salt"] ∧
    removeIngredient 0 ["tomato", "onion", "salt"] = ["onion", "salt"] := by
  constructor
  · exact Eq.trans
      ((ingredient_edit_semantics "salt" ["tomato", "onion"] 0).1
        (by decide) rfl)
      rfl
  · exact Eq.trans
      ((ingredient_edit_semantics "x" ["tomato", "onion", "salt"] 0).2.2.2)
      rfl

/-- Claim C8: any sequence of ingredient edits performed while in the
ingredients or recipes step changes only the ingredient list: the
step, the recipe list, the error and the busy flag (and the pending
timer) are all unchanged. -/
theorem edits_change_only_ingredients (s : AppState)
    (es : List IngredientEdit)
    (h : s.currentStep = Step.ingredients ∨ s.currentStep = Step.recipes) :
    (applyEdits s es).currentStep = s.currentStep ∧
    (applyEdits s es).recipes = s.recipes ∧
    (applyEdits s es).error = s.error ∧
    (applyEdits s es).loading = s.loading ∧
    (applyEdits s es).recipesTimer = s.recipesTimer :=
  applyEdits_frame es s

/-- Witness for C8 at a concrete state in the ingredients step with a
concrete add and remove edit. -/
theorem edits_change_only_ingredients_witness :
    (applyEdits { initState with
        ingredients := ["tomato", "onion"]
        currentStep := Step.ingredients }
      [IngredientEdit.add "salt", IngredientEdit.remove 0]).currentStep =
    ({ initState with
        ingredients := ["tomato", "onion"]
        currentStep := Step.ingredients } : AppState).currentStep :=
  (edits_change_only_ingredients
    { initState with
        ingredients := ["tomato", "onion"]
        currentStep := Step.ingredients }
    [IngredientEdit.add "salt", IngredientEdit.remove 0]
    (Or.inl rfl)).1

/-- Claim C9 counterexample: the server-error message is not the
detail field verbatim: the code places fixed text in front of it. -/
theorem serverError_message_counterexample :
    errorMessage
      { code := none
        response := some { detail := some "Invalid image"
                           statusText := "Bad Request" }
        request := true
        message := "Request failed" } = "Server error: Invalid image" ∧
    ("Server error: Invalid image" : String) ≠ "Invalid image" := by
  refine ⟨rfl, by decide⟩

/-- Claim C9 (amended): for a failure classified as a server error,
the user-visible message is the fixed leading text followed by the detail
field when it is present and non-empty, and by the status text when
the detail field is absent or empty. -/
theorem serverError_message_spec (e : AxiosError) (resp : ErrResponse)
    (hk : errorBranch e = ErrorKind.serverError)
    (hr : e.response = some resp) :
    (∀ d, resp.detail = some d → d ≠ "" →
      errorMessage e = "Server error: " ++ d) ∧
    (resp.detail = none →
      errorMessage e = "Server error: " ++ resp.statusText) ∧
    (resp.detail = some "" →
      errorMessage e = "Server error: " ++ resp.statusText) := by
  have hc : ¬ e.code = some "ECONNABORTED" := by
    intro hcode
    simp [errorBranch, hcode] at hk
  refine ⟨fun d hd hne => ?_, fun hd => ?_, fun hd => ?_⟩
  · simp [errorMessage, hc, hr, hd, hne]
  · simp [errorMessage, hc, hr, hd]
  · simp [errorMessage, hc, hr, hd]

/-- Witness for C9 (amended) at a concrete server rejection whose
data carries no detail field. -/
theorem serverError_message_spec_witness :
    errorMessage
      { code := none
        response := some { detail := none
                           statusText := "Internal Server Error" }
        request := true
        message := "Request failed" } =
      "Server error: " ++ "Internal Server Error" :=
  (serverError_message_spec
    { code := none
      response := some { detail := none
                         statusText := "Internal Server Error" }
      request := true
      message := "Request failed" }
    { detail := none, statusText := "Internal Server Error" }
    rfl rfl).2.1 rfl

end RecipeSnap
